import Mathlib

/-!
Verification of the news-article pipeline (`newsapp.py`, the local-scrape
variant, and `newsapp2.py`, the delegated-fetch variant) against its
specification.  The Python sources are shallowly embedded: the retry loop of
`make_gemini_call_with_retry` becomes a fuel-indexed recursion that records
its backoff waits and attempt count; the Streamlit run scripts become total
functions from an environment (user inputs plus the behaviour of the external
HTTP fetch and Gemini service, which are I/O boundaries) to a record of the
observable run outcome, including an ordered event trace of the external
actions the run performs.
-/

/-- Outcome of one `client.models.generate_content` invocation, as seen by the
`try`/`except` clauses of `make_gemini_call_with_retry`: a returned response,
a raised `APIError` (the transient class, caught first), or any other raised
exception (the broad `except Exception` clause). -/
inductive CallOutcome (α : Type) where
  | success (r : α)
  | transient
  | fatal
deriving DecidableEq

/-- Result of `make_gemini_call_with_retry`: the returned value (`none` models
Python `None`), the list of `time.sleep` durations performed in order, and the
number of `generate_content` invocations issued. -/
structure RetryResult (α : Type) where
  result : Option α
  waits : List Nat
  attempts : Nat
deriving DecidableEq

/-- Loop body of `make_gemini_call_with_retry` (`newsapp.py` lines 97-118,
identical in `newsapp2.py` lines 22-43).  `fuel` is the number of iterations
the `for attempt in range(max_retries)` loop still has; `attempt` is the
current loop index, so `fuel + attempt = max_retries` at every call from
`make_gemini_call_with_retry`.  On `APIError` with `attempt < max_retries - 1`
the code sleeps `2 ** attempt` and retries; on the last attempt, or on any
other exception, it returns `None`. -/
def retryAux {α : Type} (call : Nat → CallOutcome α) (max_retries : Nat) :
    Nat → Nat → RetryResult α
  | 0, _ => ⟨none, [], 0⟩
  | fuel + 1, attempt =>
    match call attempt with
    | .success r => ⟨some r, [], 1⟩
    | .transient =>
      if attempt < max_retries - 1 then
        let rest := retryAux call max_retries fuel (attempt + 1)
        ⟨rest.result, 2 ^ attempt :: rest.waits, rest.attempts + 1⟩
      else ⟨none, [], 1⟩
    | .fatal => ⟨none, [], 1⟩

/-- Embeds `make_gemini_call_with_retry(client, contents, config, max_retries)`.
The `client`/`contents`/`config` arguments only parametrise the external call,
so the embedding abstracts them into `call`, the behaviour of the service on
each attempt index.  Every exception raised by the call is caught inside the
function (`except APIError` / `except Exception`), so the embedding is a total
function: no exception channel exists in its result type. -/
def make_gemini_call_with_retry {α : Type} (call : Nat → CallOutcome α)
    (max_retries : Nat) : RetryResult α :=
  retryAux call max_retries max_retries 0

lemma retryAux_transient_prefix {α : Type} (call : Nat → CallOutcome α)
    (max_retries : Nat) (v : α) :
    ∀ (k fuel attempt : Nat),
      (∀ i, i < k → call (attempt + i) = .transient) →
      call (attempt + k) = .success v →
      k < fuel → attempt + fuel = max_retries →
      retryAux call max_retries fuel attempt =
        ⟨some v, (List.range k).map (fun i => 2 ^ (attempt + i)), k + 1⟩ := by
  intro k
  induction k with
  | zero =>
    intro fuel attempt _ hS hk hfa
    match fuel, hk with
    | fuel + 1, _ =>
      simp only [retryAux]
      rw [show attempt + 0 = attempt from rfl] at hS
      rw [hS]
      simp
  | succ n ih =>
    intro fuel attempt hT hS hk hfa
    match fuel, hk with
    | fuel + 1, _ =>
      have h0 : call attempt = .transient := by
        have := hT 0 (Nat.succ_pos n)
        simpa using this
      have hlt : attempt < max_retries - 1 := by omega
      have hrec := ih fuel (attempt + 1)
        (fun i hi => by
          have := hT (i + 1) (by omega)
          rwa [show attempt + (i + 1) = attempt + 1 + i by omega] at this)
        (by rwa [show attempt + 1 + n = attempt + (n + 1) by omega])
        (by omega) (by omega)
      simp only [retryAux, h0, if_pos hlt, hrec]
      have hmap : (List.range (n + 1)).map (fun i => 2 ^ (attempt + i)) =
          2 ^ attempt :: (List.range n).map (fun i => 2 ^ (attempt + 1 + i)) := by
        rw [List.range_succ_eq_map]
        simp only [List.map_cons, List.map_map, Nat.add_zero]
        rw [show ((fun i => 2 ^ (attempt + i)) ∘ Nat.succ) =
            fun i => 2 ^ (attempt + 1 + i) by
          funext i
          simp only [Function.comp_apply]
          rw [show attempt + Nat.succ i = attempt + 1 + i by omega]]
      rw [hmap]

/-- C1: a call that raises a transient `APIError` on each of its first `k`
attempts and succeeds on attempt `k`, with `k < max_retries`, makes the retry
controller return the success result after exactly `k` backoff waits of
durations `2^0, 2^1, ..., 2^(k-1)` in that order (and `k + 1` attempts). -/
theorem retry_transient_then_success {α : Type} (call : Nat → CallOutcome α)
    (max_retries k : Nat) (v : α)
    (hT : ∀ i, i < k → call i = .transient)
    (hS : call k = .success v) (hk : k < max_retries) :
    make_gemini_call_with_retry call max_retries =
      ⟨some v, (List.range k).map (fun i => 2 ^ i), k + 1⟩ := by
  have := retryAux_transient_prefix call max_retries v k max_retries 0
    (fun i hi => by simpa using hT i hi) (by simpa using hS) hk (by omega)
  simpa [make_gemini_call_with_retry] using this

theorem retry_transient_then_success_witness :
    make_gemini_call_with_retry
        (fun i => if i < 2 then CallOutcome.transient else CallOutcome.success 7) 3 =
      ⟨some 7, (List.range 2).map (fun i => 2 ^ i), 3⟩ :=
  retry_transient_then_success _ 3 2 7
    (fun i hi => by simp [hi]) (by simp) (by omega)

lemma retryAux_all_transient {α : Type} (call : Nat → CallOutcome α)
    (max_retries : Nat) (hT : ∀ i, call i = .transient) :
    ∀ (fuel attempt : Nat), attempt + fuel = max_retries →
      (retryAux call max_retries fuel attempt).result = none ∧
      (retryAux call max_retries fuel attempt).attempts = fuel := by
  intro fuel
  induction fuel with
  | zero => intro attempt _; simp [retryAux]
  | succ f ih =>
    intro attempt hfa
    simp only [retryAux, hT attempt]
    by_cases hlt : attempt < max_retries - 1
    · have hrec := ih (attempt + 1) (by omega)
      have hf : f = max_retries - attempt - 1 := by omega
      simp only [if_pos hlt]
      constructor
      · exact hrec.1
      · simp [hrec.2]
    · have hf : f = 0 := by omega
      simp [if_neg hlt, hf]

/-- C2: a call that raises a transient `APIError` on every attempt makes the
retry controller perform exactly `max_retries` attempts and return `None`;
because both `except` clauses return rather than re-raise, no exception
reaches the caller (the embedding is a total function with no exception
channel, so this is captured by the result being the `none` sentinel). -/
theorem retry_always_transient_exhausts {α : Type} (call : Nat → CallOutcome α)
    (max_retries : Nat) (hT : ∀ i, call i = .transient) :
    (make_gemini_call_with_retry call max_retries).result = none ∧
    (make_gemini_call_with_retry call max_retries).attempts = max_retries := by
  have := retryAux_all_transient call max_retries hT max_retries 0 (by omega)
  simpa [make_gemini_call_with_retry] using this

theorem retry_always_transient_exhausts_witness :
    (make_gemini_call_with_retry (fun _ => (CallOutcome.transient : CallOutcome Nat)) 3).result
        = none ∧
    (make_gemini_call_with_retry (fun _ => (CallOutcome.transient : CallOutcome Nat)) 3).attempts
        = 3 :=
  retry_always_transient_exhausts _ 3 (fun _ => rfl)

/-- C3: a call that raises a non-transient exception (anything other than
`APIError`) on its first attempt makes the retry controller return `None`
immediately: one attempt, no backoff wait, and no exception propagates (the
`except Exception` clause returns `None`). -/
theorem retry_fatal_aborts_immediately {α : Type} (call : Nat → CallOutcome α)
    (max_retries : Nat) (hmr : 0 < max_retries)
    (hF : call 0 = .fatal) :
    make_gemini_call_with_retry call max_retries = ⟨none, [], 1⟩ := by
  match max_retries, hmr with
  | m + 1, _ =>
    simp [make_gemini_call_with_retry, retryAux, hF]

theorem retry_fatal_aborts_immediately_witness :
    make_gemini_call_with_retry (fun _ => (CallOutcome.fatal : CallOutcome Nat)) 3 =
      ⟨none, [], 1⟩ :=
  retry_fatal_aborts_immediately _ 3 (by omega) rfl

/-- Minimal JSON value model for the payload returned by `json.loads` on the
structured vocabulary response.  Objects are association lists with the keys
in their JSON order; `json.loads` produces key-unique objects, and every input
used below is key-unique. -/
inductive Json where
  | null
  | bool (b : Bool)
  | num (n : Int)
  | str (s : String)
  | arr (items : List Json)
  | obj (fields : List (String × Json))

/-- Extracts the three field values of a JSON object that matches one item of
`vocab_schema` (`newsapp.py` lines 238-249): an object whose properties are the
required string fields `English_Word`, `Thai_Translation`, `Example_Sentence`.
Returns `none` when the object does not have this shape. -/
def entryFields : Json → Option (String × String × String)
  | .obj [(k1, .str a), (k2, .str b), (k3, .str c)] =>
    if k1 == "English_Word" && k2 == "Thai_Translation" && k3 == "Example_Sentence"
    then some (a, b, c) else none
  | _ => none

/-- One response item is well-formed against `vocab_schema`. -/
def entrySchemaValid (r : Json) : Bool :=
  (entryFields r).isSome

/-- Whole response payload is well-formed against `vocab_schema`: an array of
well-formed items.  Note the schema constrains only the field names and the
string type of the values; it does not require the strings to be non-empty. -/
def schemaValid : Json → Bool
  | .arr rows => rows.all entrySchemaValid
  | _ => false

/-- Keys of one row of `pd.DataFrame(list_of_dicts)`; `none` when the row is
not a JSON object (pandas then fails to build a 3-column frame, which the
source code's broad `except Exception` turns into a display error). -/
def rowKeys : Json → Option (List String)
  | .obj fs => some (fs.map Prod.fst)
  | _ => none

/-- First-seen union of column keys, as `pd.DataFrame` computes the columns of
a frame built from a list of dicts. -/
def addKeys (acc ks : List String) : List String :=
  acc ++ ks.filter (fun k => !(acc.contains k))

/-- Columns of `pd.DataFrame(vocab_data)` for an array of objects: the
first-seen union of the row keys; `none` models pandas raising on rows that
are not objects.  (The model covers the array-of-objects payloads that the
schema-constrained generation request is about; other payload shapes are
modelled as construction failures.) -/
def dataFrameColumns (rows : List Json) : Option (List String) :=
  rows.foldl
    (fun acc row =>
      match acc, rowKeys row with
      | some a, some ks => some (addKeys a ks)
      | _, _ => none)
    (some [])

/-- One displayed row of the frame: the cell of each column in order, `none`
modelling pandas `NaN` for a key the row object lacks. -/
def buildRow (cols : List String) : Json → List (Option Json)
  | .obj fs => cols.map (fun k => fs.lookup k)
  | _ => cols.map (fun _ => none)

/-- Which `except` branch of the vocabulary-table block fires
(`newsapp.py` lines 292-296, `newsapp2.py` lines 235-239). -/
inductive VocabParseError where
  | jsonDecode
  | display
deriving DecidableEq

/-- True exactly when the branch also calls `st.text(vocab_response.text)`,
surfacing the raw payload: only the `json.JSONDecodeError` branch does; the
broad `except Exception` branch shows only the exception message. -/
def rawSurfaced : VocabParseError → Bool
  | .jsonDecode => true
  | .display => false

/-- Embeds the vocabulary-table construction (`newsapp.py` lines 269-296):
`json.loads` (its result is the `parsed` argument, `none` when the text is not
valid JSON and `json.JSONDecodeError` is raised), then `pd.DataFrame` and the
assignment of the three display column names, which raises unless the frame
has exactly 3 columns; any exception there lands in the broad
`except Exception` branch. -/
def vocab_stage_parse (parsed : Option Json) :
    Except VocabParseError (List (List (Option Json))) :=
  match parsed with
  | none => .error .jsonDecode
  | some j =>
    match j with
    | .arr rows =>
      match dataFrameColumns rows with
      | some cols =>
        if cols.length = 3 then .ok (rows.map (buildRow cols))
        else .error .display
      | none => .error .display
    | _ => .error .display

/-- Cells a schema-valid response item contributes to the displayed table: its
three field values in response order. -/
def dfRowOf (r : Json) : List (Option Json) :=
  match entryFields r with
  | some (a, b, c) => [some (.str a), some (.str b), some (.str c)]
  | none => []

def vocabCols : List String :=
  ["English_Word", "Thai_Translation", "Example_Sentence"]

lemma vocab_stage_parse_arr (rows : List Json) :
    vocab_stage_parse (some (.arr rows)) =
      match dataFrameColumns rows with
      | some cols =>
        if cols.length = 3 then .ok (rows.map (buildRow cols))
        else .error .display
      | none => .error .display := rfl

lemma entryFields_shape (r : Json) (a b c : String)
    (h : entryFields r = some (a, b, c)) :
    r = .obj [("English_Word", .str a), ("Thai_Translation", .str b),
      ("Example_Sentence", .str c)] := by
  unfold entryFields at h
  split at h
  · rename_i k1 x k2 y k3 z
    split at h
    · rename_i hks
      simp only [Bool.and_eq_true, beq_iff_eq] at hks
      simp only [Option.some.injEq, Prod.mk.injEq] at h
      obtain ⟨⟨h1, h2⟩, h3⟩ := hks
      obtain ⟨ha, hb, hc⟩ := h
      subst h1 h2 h3 ha hb hc
      rfl
    · exact absurd h (by simp)
  · exact absurd h (by simp)

lemma entrySchemaValid_shape (r : Json) (h : entrySchemaValid r = true) :
    ∃ a b c, entryFields r = some (a, b, c) ∧
      r = .obj [("English_Word", .str a), ("Thai_Translation", .str b),
        ("Example_Sentence", .str c)] := by
  unfold entrySchemaValid at h
  rw [Option.isSome_iff_exists] at h
  obtain ⟨⟨a, b, c⟩, hf⟩ := h
  exact ⟨a, b, c, hf, entryFields_shape r a b c hf⟩

lemma rowKeys_of_valid (r : Json) (h : entrySchemaValid r = true) :
    rowKeys r = some vocabCols := by
  obtain ⟨a, b, c, _, hr⟩ := entrySchemaValid_shape r h
  subst hr
  rfl

lemma dataFrameColumns_fold_fixed (rows : List Json)
    (h : rows.all entrySchemaValid = true) :
    rows.foldl
      (fun acc row =>
        match acc, rowKeys row with
        | some a, some ks => some (addKeys a ks)
        | _, _ => none)
      (some vocabCols) = some vocabCols := by
  induction rows with
  | nil => rfl
  | cons r rs ih =>
    simp only [List.all_cons, Bool.and_eq_true] at h
    simp only [List.foldl_cons, rowKeys_of_valid r h.1]
    rw [show addKeys vocabCols vocabCols = vocabCols from rfl]
    exact ih h.2

lemma dataFrameColumns_of_valid (r : Json) (rows : List Json)
    (h : (r :: rows).all entrySchemaValid = true) :
    dataFrameColumns (r :: rows) = some vocabCols := by
  simp only [List.all_cons, Bool.and_eq_true] at h
  unfold dataFrameColumns
  simp only [List.foldl_cons, rowKeys_of_valid r h.1]
  rw [show addKeys [] vocabCols = vocabCols from rfl]
  exact dataFrameColumns_fold_fixed rows h.2

lemma buildRow_of_valid (r : Json) (h : entrySchemaValid r = true) :
    buildRow vocabCols r = dfRowOf r := by
  obtain ⟨a, b, c, hf, hr⟩ := entrySchemaValid_shape r h
  subst hr
  simp only [dfRowOf, entryFields]
  rfl

/-- C7 (amended): a response payload that is well-formed against
`vocab_schema` and has exactly 5 entries yields a displayed table of exactly 5
rows, in response order, each row holding the three field strings of its entry
verbatim.  (The schema does not force the strings to be non-empty, so neither
does the table: see the counterexample.) -/
theorem vocab_table_five_entries_order_preserved (rows : List Json)
    (hv : schemaValid (.arr rows) = true) (h5 : rows.length = 5) :
    vocab_stage_parse (some (.arr rows)) = .ok (rows.map dfRowOf) ∧
    (rows.map dfRowOf).length = 5 := by
  match rows, h5 with
  | r :: rs, h5 =>
    have hall : (r :: rs).all entrySchemaValid = true := hv
    have hcols := dataFrameColumns_of_valid r rs hall
    constructor
    · rw [vocab_stage_parse_arr, hcols]
      show (if vocabCols.length = 3 then
            Except.ok ((r :: rs).map (buildRow vocabCols))
          else Except.error VocabParseError.display)
          = Except.ok ((r :: rs).map dfRowOf)
      rw [if_pos (show vocabCols.length = 3 from rfl)]
      congr 1
      apply List.map_congr_left
      intro x hx
      have hxv : entrySchemaValid x = true := by
        rw [List.all_eq_true] at hall
        exact hall x hx
      exact buildRow_of_valid x hxv
    · simpa using h5

def vocabEntryJson (a b c : String) : Json :=
  .obj [("English_Word", .str a), ("Thai_Translation", .str b),
    ("Example_Sentence", .str c)]

def vocabRows5 : List Json :=
  [vocabEntryJson "abate" "ld" "", vocabEntryJson "surge" "ep" "s2",
   vocabEntryJson "probe" "st" "s3", vocabEntryJson "deter" "hk" "s4",
   vocabEntryJson "amid" "tk" "s5"]

theorem vocab_table_five_entries_order_preserved_witness :
    vocab_stage_parse (some (.arr vocabRows5)) = .ok (vocabRows5.map dfRowOf) ∧
    (vocabRows5.map dfRowOf).length = 5 :=
  vocab_table_five_entries_order_preserved vocabRows5 rfl rfl

/-- C7 (counterexample): `vocabRows5` is well-formed against `vocab_schema`
and has exactly 5 entries, yet the table the code builds from it carries the
empty string as the first entry's `Example_Sentence` cell — the code never
checks the parsed fields for non-emptiness, so "each entry's three fields are
non-empty strings" fails. -/
theorem schema_valid_empty_field_counterexample :
    schemaValid (.arr vocabRows5) = true ∧
    vocabRows5.length = 5 ∧
    vocab_stage_parse (some (.arr vocabRows5)) =
      .ok [[some (.str "abate"), some (.str "ld"), some (.str "")],
        [some (.str "surge"), some (.str "ep"), some (.str "s2")],
        [some (.str "probe"), some (.str "st"), some (.str "s3")],
        [some (.str "deter"), some (.str "hk"), some (.str "s4")],
        [some (.str "amid"), some (.str "tk"), some (.str "s5")]] ∧
    ("" : String).length = 0 :=
  ⟨rfl, rfl, rfl, rfl⟩

/-- C8 (amended): a response text that is not valid JSON makes the stage take
the `json.JSONDecodeError` branch — a distinct error that does surface the raw
payload — and produce no table; a valid-JSON payload either yields a table or
lands in the broad `except Exception` branch, which reports the exception but
does not surface the raw payload. -/
theorem vocab_parse_error_classification :
    vocab_stage_parse none = .error .jsonDecode ∧
    rawSurfaced .jsonDecode = true ∧
    rawSurfaced .display = false ∧
    ∀ j : Json, (vocab_stage_parse (some j)).isOk = true ∨
      vocab_stage_parse (some j) = .error .display := by
  refine ⟨rfl, rfl, rfl, ?_⟩
  intro j
  cases j with
  | null => right; rfl
  | bool b => right; rfl
  | num n => right; rfl
  | str s => right; rfl
  | obj fs => right; rfl
  | arr rows =>
    rw [vocab_stage_parse_arr]
    cases hc : dataFrameColumns rows with
    | none => right; rfl
    | some cols =>
      by_cases h3 : cols.length = 3
      · left
        show (if cols.length = 3 then Except.ok (rows.map (buildRow cols))
            else Except.error VocabParseError.display).isOk = true
        rw [if_pos h3]
        rfl
      · right
        show (if cols.length = 3 then Except.ok (rows.map (buildRow cols))
            else Except.error VocabParseError.display)
            = Except.error VocabParseError.display
        rw [if_neg h3]

/-- C8 (counterexample): the claim promises that every malformed response
surfaces the raw payload and never yields a table.  Both parts fail: a
valid-JSON payload whose single object has only two of the schema fields
makes table construction fail in the broad `except Exception` branch, which
does not surface the raw payload; and a valid-JSON payload whose objects
carry three wrong-named string keys builds a 3-column frame, so the column
rename succeeds and a table is displayed despite the schema mismatch. -/
theorem shape_failure_raw_not_surfaced_counterexample :
    vocab_stage_parse
        (some (.arr [.obj [("English_Word", .str "a"), ("Thai_Translation", .str "b")]]))
      = .error .display ∧
    rawSurfaced .display = false ∧
    schemaValid (.arr [.obj [("A", .str "x"), ("B", .str "y"), ("C", .str "z")]])
      = false ∧
    vocab_stage_parse
        (some (.arr [.obj [("A", .str "x"), ("B", .str "y"), ("C", .str "z")]]))
      = .ok [[some (.str "x"), some (.str "y"), some (.str "z")]] :=
  ⟨rfl, rfl, rfl, rfl⟩

/-- Truncation marker appended by `get_article_text` when the extracted text
exceeds the cap. -/
def truncMarker : List Char :=
  ['.', '.', '.']

/-- Embeds the tail of `get_article_text` (`newsapp.py` lines 44-54), the part
after the HTTP fetch and HTML scraping (which are external I/O): given the
already-extracted `article_text` (a Python string, modelled as its character
sequence), return the text to hand downstream paired with whether the
truncation warning was shown, or `none` when the text is empty (the
"no extractable content" error return). -/
def get_article_text (article_text : List Char) : Option (List Char) × Bool :=
  if article_text = [] then (none, false)
  else if article_text.length > 15000 then
    (some (article_text.take 15000 ++ truncMarker), true)
  else (some article_text, false)

/-- C10: an extracted article text longer than the 15,000-character cap is
returned as its first 15,000 characters followed by the three-character
marker, so the returned text has exactly 15,003 characters — three more than
the stated cap — and the truncation warning is surfaced. -/
theorem get_article_text_truncation_length (t : List Char)
    (h : 15000 < t.length) :
    (get_article_text t).1 = some (t.take 15000 ++ truncMarker) ∧
    ((get_article_text t).1.getD []).length = 15003 ∧
    (get_article_text t).2 = true := by
  have hne : t ≠ [] := by
    intro he
    rw [he] at h
    simp at h
  unfold get_article_text
  rw [if_neg hne, if_pos (by omega)]
  refine ⟨rfl, ?_, rfl⟩
  simp only [Option.getD_some, List.length_append, List.length_take]
  rw [show min 15000 t.length = 15000 by omega]
  rfl

theorem get_article_text_truncation_length_witness :
    (get_article_text (List.replicate 15001 'a')).1
        = some ((List.replicate 15001 'a').take 15000 ++ truncMarker) ∧
    ((get_article_text (List.replicate 15001 'a')).1.getD []).length = 15003 ∧
    (get_article_text (List.replicate 15001 'a')).2 = true :=
  get_article_text_truncation_length _ (by rw [List.length_replicate]; omega)

/-- Response object returned by `generate_content`: the object itself is
always truthy in Python, its `.text` attribute may be `None` or a string. -/
structure GeminiResponse where
  text : Option String
deriving DecidableEq

/-- Python truthiness of an optional string: `None` and `""` are falsy. -/
def truthyOptStr : Option String → Bool
  | none => false
  | some s => !(s == "")

/-- Embeds Python `str.strip()`: drops leading and trailing whitespace. -/
def pyStrip (s : String) : String :=
  ⟨((s.data.dropWhile Char.isWhitespace).reverse.dropWhile
    Char.isWhitespace).reverse⟩

/-- Embeds Python `str.startswith(p)`. -/
def pyStartsWith (s p : String) : Bool :=
  p.data.isPrefixOf s.data

/-- Stage label of a `generate_content` invocation: `fetchExtract` is the
delegated fetch-and-clean call of `newsapp2.py`; `clean`, `summarize` and
`vocab` are the three generation stages. -/
inductive Stage where
  | fetchExtract
  | clean
  | summarize
  | vocab
deriving DecidableEq

/-- External actions a run performs, in order: the HTTP GET of
`get_article_text`, the Gemini client construction, and each individual
`generate_content` invocation (with its stage and attempt index). -/
inductive Event where
  | httpFetch
  | clientInit
  | llmCall (s : Stage) (attempt : Nat)
deriving DecidableEq

/-- Trace of the `generate_content` invocations one retry-wrapped stage call
issues: one event per attempt. -/
def llmEvents (s : Stage) (n : Nat) : List Event :=
  (List.range n).map (fun a => Event.llmCall s a)

def eIsLlm : Event → Bool
  | .llmCall _ _ => true
  | _ => false

def eIsInit : Event → Bool
  | .clientInit => true
  | _ => false

def eIsStage (s : Stage) : Event → Bool
  | .llmCall s' _ => s' == s
  | _ => false

/-- Reason a run stopped early (`st.stop()` sites), in source order. -/
inductive StopReason where
  | noUrl
  | noKey
  | badScheme
  | fetchFailed
  | tooShort
  | clientInitFailed
deriving DecidableEq

/-- Observable outcome of one Streamlit run: the event trace, whether and why
the run stopped early, and what each stage displayed. -/
structure RunOutcome where
  events : List Event
  stopReason : Option StopReason
  cleanText : Option String
  cleanFailed : Bool
  cleanFallbackWarning : Bool
  summaryInput : Option String
  summaryShown : Option String
  summaryErrorShown : Bool
  vocabInput : Option String
  vocabTable : Option (List (List (Option Json)))
  vocabError : Option VocabParseError
  vocabRawShown : Bool
  vocabCallErrorShown : Bool

/-- Outcome of a run that hit `st.stop()` after the given events: nothing
after the stop point is displayed. -/
def stopRun (evs : List Event) (r : StopReason) : RunOutcome :=
  ⟨evs, some r, none, false, false, none, none, false, none, none, none,
    false, false⟩

/-- Result of `extract_main_content_with_gemini` / `extract_article_content`
plus the attempt count of its retry-wrapped call. -/
structure ExtractResult where
  text : Option String
  errorMsg : Option String
  attempts : Nat

/-- Embeds `extract_main_content_with_gemini` (`newsapp.py` lines 62-92): one
retry-wrapped generation call; if the response and its text are truthy, the
stripped text is returned, otherwise `(None, error message)`. -/
def extract_main_content_with_gemini (call : Nat → CallOutcome GeminiResponse) :
    ExtractResult :=
  let r := make_gemini_call_with_retry call 3
  match r.result with
  | some resp =>
    match resp.text with
    | some t =>
      if t == "" then ⟨none, some "cannot extract main content", r.attempts⟩
      else ⟨some (pyStrip t), none, r.attempts⟩
    | none => ⟨none, some "cannot extract main content", r.attempts⟩
  | none => ⟨none, some "cannot extract main content", r.attempts⟩

/-- Embeds `extract_article_content` of `newsapp2.py` (lines 45-74): same
retry-wrapped call and truthiness/strip handling, but the prompt embeds the
URL and the call plays the role of the fetch. -/
def extract_article_content (call : Nat → CallOutcome GeminiResponse) :
    ExtractResult :=
  extract_main_content_with_gemini call

/-- Environment of one `newsapp.py` run: the two user inputs and the behaviour
of the external collaborators — the HTTP scrape result (text and error, as
`get_article_text` returns them), Gemini client construction, the three
generation calls, and `json.loads` on the vocabulary response text. -/
structure NewsappEnv where
  news_url : String
  gemini_api_key : String
  fetch_text : Option String
  fetch_error : Option String
  client_init_ok : Bool
  clean_call : Nat → CallOutcome GeminiResponse
  summary_call : Nat → CallOutcome GeminiResponse
  vocab_call : Nat → CallOutcome GeminiResponse
  vocab_parse : String → Option Json

/-- Environment of one `newsapp2.py` run: no HTTP scrape; the delegated
extraction call replaces it. -/
structure Newsapp2Env where
  news_url : String
  gemini_api_key : String
  client_init_ok : Bool
  extract_call : Nat → CallOutcome GeminiResponse
  summary_call : Nat → CallOutcome GeminiResponse
  vocab_call : Nat → CallOutcome GeminiResponse
  vocab_parse : String → Option Json

/-- Embeds the Summarize and Extract-Vocabulary stages shared verbatim by both
scripts (`newsapp.py` lines 209-298, `newsapp2.py` lines 152-241), run over
`clean_article_text` after the events `evs`; `cleanFailed`/`cleanWarn` carry
what the Clean stage already displayed. -/
def finish_stages (summary_call vocab_call : Nat → CallOutcome GeminiResponse)
    (vocab_parse : String → Option Json) (evs : List Event)
    (clean_article_text : String) (cleanFailed cleanWarn : Bool) : RunOutcome :=
  let sr := make_gemini_call_with_retry summary_call 3
  let evS := evs ++ llmEvents .summarize sr.attempts
  let sShown := match sr.result with
    | some resp => if truthyOptStr resp.text then resp.text else none
    | none => none
  let sErr := !(truthyOptStr sShown)
  let vr := make_gemini_call_with_retry vocab_call 3
  let evV := evS ++ llmEvents .vocab vr.attempts
  match vr.result with
  | some resp =>
    match resp.text with
    | some t =>
      if t == "" then
        ⟨evV, none, some clean_article_text, cleanFailed, cleanWarn,
          some clean_article_text, sShown, sErr, some clean_article_text,
          none, none, false, true⟩
      else
        match vocab_stage_parse (vocab_parse t) with
        | .ok tab =>
          ⟨evV, none, some clean_article_text, cleanFailed, cleanWarn,
            some clean_article_text, sShown, sErr, some clean_article_text,
            some tab, none, false, false⟩
        | .error e =>
          ⟨evV, none, some clean_article_text, cleanFailed, cleanWarn,
            some clean_article_text, sShown, sErr, some clean_article_text,
            none, some e, rawSurfaced e, false⟩
    | none =>
      ⟨evV, none, some clean_article_text, cleanFailed, cleanWarn,
        some clean_article_text, sShown, sErr, some clean_article_text,
        none, none, false, true⟩
  | none =>
    ⟨evV, none, some clean_article_text, cleanFailed, cleanWarn,
      some clean_article_text, sShown, sErr, some clean_article_text,
      none, none, false, true⟩

/-- Embeds the `if process_button:` body of `newsapp.py` (lines 151-298):
input validation, HTTP fetch via `get_article_text`, length validation,
Gemini client construction, then the Clean stage with its raw-text fallback,
then the shared Summarize and Extract-Vocabulary stages. -/
def run_newsapp (env : NewsappEnv) : RunOutcome :=
  if env.news_url == "" then stopRun [] .noUrl
  else if env.gemini_api_key == "" then stopRun [] .noKey
  else if !(pyStartsWith env.news_url "http://" || pyStartsWith env.news_url "https://")
  then stopRun [] .badScheme
  else if truthyOptStr env.fetch_error then stopRun [Event.httpFetch] .fetchFailed
  else
    match env.fetch_text with
    | none => stopRun [Event.httpFetch] .tooShort
    | some raw =>
      if raw.length < 50 then stopRun [Event.httpFetch] .tooShort
      else if !env.client_init_ok then
        stopRun [Event.httpFetch, Event.clientInit] .clientInitFailed
      else
        let ex := extract_main_content_with_gemini env.clean_call
        let evClean := [Event.httpFetch, Event.clientInit]
          ++ llmEvents .clean ex.attempts
        if truthyOptStr ex.errorMsg then
          finish_stages env.summary_call env.vocab_call env.vocab_parse
            evClean raw true true
        else
          finish_stages env.summary_call env.vocab_call env.vocab_parse
            evClean (ex.text.getD "") false false

/-- Embeds the `if process_button:` body of `newsapp2.py` (lines 108-241):
input validation, Gemini client construction, the delegated fetch-and-clean
extraction (a generation call), length validation, then the shared Summarize
and Extract-Vocabulary stages. -/
def run_newsapp2 (env : Newsapp2Env) : RunOutcome :=
  if env.news_url == "" then stopRun [] .noUrl
  else if env.gemini_api_key == "" then stopRun [] .noKey
  else if !(pyStartsWith env.news_url "http://" || pyStartsWith env.news_url "https://")
  then stopRun [] .badScheme
  else if !env.client_init_ok then stopRun [Event.clientInit] .clientInitFailed
  else
    let ex := extract_article_content env.extract_call
    let evEx := [Event.clientInit] ++ llmEvents .fetchExtract ex.attempts
    if truthyOptStr ex.errorMsg then stopRun evEx .fetchFailed
    else if (ex.text.getD "").length < 50 then stopRun evEx .tooShort
    else
      finish_stages env.summary_call env.vocab_call env.vocab_parse
        evEx (ex.text.getD "") false false

lemma retry3_attempts_pos {α : Type} (call : Nat → CallOutcome α) :
    0 < (make_gemini_call_with_retry call 3).attempts := by
  show 0 < (retryAux call 3 (2 + 1) 0).attempts
  cases hc : call 0 <;> simp [retryAux, hc]

lemma llmCall_zero_mem (s : Stage) (n : Nat) (h : 0 < n) :
    Event.llmCall s 0 ∈ llmEvents s n := by
  unfold llmEvents
  exact List.mem_map_of_mem _ (List.mem_range.mpr h)

lemma finish_stages_eq (sc vc : Nat → CallOutcome GeminiResponse)
    (vp : String → Option Json) (evs : List Event) (ct : String)
    (cf cw : Bool) :
    ∃ sShown sErr vtab verr vraw vcerr,
      finish_stages sc vc vp evs ct cf cw =
        ⟨evs ++ llmEvents .summarize (make_gemini_call_with_retry sc 3).attempts
            ++ llmEvents .vocab (make_gemini_call_with_retry vc 3).attempts,
          none, some ct, cf, cw, some ct, sShown, sErr, some ct,
          vtab, verr, vraw, vcerr⟩ := by
  simp only [finish_stages]
  repeat' split
  all_goals exact ⟨_, _, _, _, _, _, rfl⟩

lemma finish_stages_stopReason (sc vc : Nat → CallOutcome GeminiResponse)
    (vp : String → Option Json) (evs : List Event) (ct : String) (cf cw : Bool) :
    (finish_stages sc vc vp evs ct cf cw).stopReason = none := by
  obtain ⟨a, b, c, d, e, f, h⟩ := finish_stages_eq sc vc vp evs ct cf cw
  rw [h]

lemma finish_stages_cleanText (sc vc : Nat → CallOutcome GeminiResponse)
    (vp : String → Option Json) (evs : List Event) (ct : String) (cf cw : Bool) :
    (finish_stages sc vc vp evs ct cf cw).cleanText = some ct := by
  obtain ⟨a, b, c, d, e, f, h⟩ := finish_stages_eq sc vc vp evs ct cf cw
  rw [h]

lemma finish_stages_cleanFailed (sc vc : Nat → CallOutcome GeminiResponse)
    (vp : String → Option Json) (evs : List Event) (ct : String) (cf cw : Bool) :
    (finish_stages sc vc vp evs ct cf cw).cleanFailed = cf := by
  obtain ⟨a, b, c, d, e, f, h⟩ := finish_stages_eq sc vc vp evs ct cf cw
  rw [h]

lemma finish_stages_cleanWarn (sc vc : Nat → CallOutcome GeminiResponse)
    (vp : String → Option Json) (evs : List Event) (ct : String) (cf cw : Bool) :
    (finish_stages sc vc vp evs ct cf cw).cleanFallbackWarning = cw := by
  obtain ⟨a, b, c, d, e, f, h⟩ := finish_stages_eq sc vc vp evs ct cf cw
  rw [h]

lemma finish_stages_summaryInput (sc vc : Nat → CallOutcome GeminiResponse)
    (vp : String → Option Json) (evs : List Event) (ct : String) (cf cw : Bool) :
    (finish_stages sc vc vp evs ct cf cw).summaryInput = some ct := by
  obtain ⟨a, b, c, d, e, f, h⟩ := finish_stages_eq sc vc vp evs ct cf cw
  rw [h]

lemma finish_stages_vocabInput (sc vc : Nat → CallOutcome GeminiResponse)
    (vp : String → Option Json) (evs : List Event) (ct : String) (cf cw : Bool) :
    (finish_stages sc vc vp evs ct cf cw).vocabInput = some ct := by
  obtain ⟨a, b, c, d, e, f, h⟩ := finish_stages_eq sc vc vp evs ct cf cw
  rw [h]

lemma finish_stages_events (sc vc : Nat → CallOutcome GeminiResponse)
    (vp : String → Option Json) (evs : List Event) (ct : String) (cf cw : Bool) :
    (finish_stages sc vc vp evs ct cf cw).events =
      evs ++ llmEvents .summarize (make_gemini_call_with_retry sc 3).attempts
        ++ llmEvents .vocab (make_gemini_call_with_retry vc 3).attempts := by
  obtain ⟨a, b, c, d, e, f, h⟩ := finish_stages_eq sc vc vp evs ct cf cw
  rw [h]

lemma finish_stages_mem_summarize (sc vc : Nat → CallOutcome GeminiResponse)
    (vp : String → Option Json) (evs : List Event) (ct : String) (cf cw : Bool) :
    Event.llmCall .summarize 0 ∈ (finish_stages sc vc vp evs ct cf cw).events := by
  rw [finish_stages_events]
  exact List.mem_append.mpr (Or.inl (List.mem_append.mpr (Or.inr
    (llmCall_zero_mem _ _ (retry3_attempts_pos sc)))))

lemma finish_stages_mem_vocab (sc vc : Nat → CallOutcome GeminiResponse)
    (vp : String → Option Json) (evs : List Event) (ct : String) (cf cw : Bool) :
    Event.llmCall .vocab 0 ∈ (finish_stages sc vc vp evs ct cf cw).events := by
  rw [finish_stages_events]
  exact List.mem_append.mpr (Or.inr (llmCall_zero_mem _ _ (retry3_attempts_pos vc)))

lemma run_newsapp_cleanFailed_shape (env : NewsappEnv)
    (h : (run_newsapp env).cleanFailed = true) :
    ∃ raw, env.fetch_text = some raw ∧
      run_newsapp env =
        finish_stages env.summary_call env.vocab_call env.vocab_parse
          ([Event.httpFetch, Event.clientInit] ++ llmEvents .clean
            (extract_main_content_with_gemini env.clean_call).attempts)
          raw true true := by
  revert h
  simp only [run_newsapp]
  repeat' split
  all_goals intro h
  all_goals simp_all [stopRun, finish_stages_cleanFailed]

/-- C4: in the local-scrape variant, whenever the Clean stage fails (the
retried cleaning call yields no usable text, so `extraction_error` is set),
the displayed CleanText is exactly the raw fetched text, the fallback warning
is surfaced, and both the Summarize and the Extract-Vocabulary stages still
run, each issuing its generation call with that same raw text as input. -/
theorem clean_fallback_uses_raw_text (env : NewsappEnv)
    (h : (run_newsapp env).cleanFailed = true) :
    (run_newsapp env).cleanText = env.fetch_text ∧
    (run_newsapp env).cleanFallbackWarning = true ∧
    (run_newsapp env).summaryInput = env.fetch_text ∧
    (run_newsapp env).vocabInput = env.fetch_text ∧
    Event.llmCall .summarize 0 ∈ (run_newsapp env).events ∧
    Event.llmCall .vocab 0 ∈ (run_newsapp env).events := by
  obtain ⟨raw, hft, hrun⟩ := run_newsapp_cleanFailed_shape env h
  rw [hrun, hft]
  exact ⟨finish_stages_cleanText _ _ _ _ _ _ _,
    finish_stages_cleanWarn _ _ _ _ _ _ _,
    finish_stages_summaryInput _ _ _ _ _ _ _,
    finish_stages_vocabInput _ _ _ _ _ _ _,
    finish_stages_mem_summarize _ _ _ _ _ _ _,
    finish_stages_mem_vocab _ _ _ _ _ _ _⟩

def rawLong : String :=
  "this raw article text is long enough to pass the fifty character check"

def envCleanFail : NewsappEnv :=
  ⟨"http://example.com", "key", some rawLong, none, true,
   fun _ => .transient,
   fun _ => .success ⟨some "summary text"⟩,
   fun _ => .success ⟨some "vocab payload"⟩,
   fun _ => none⟩

theorem clean_fallback_uses_raw_text_witness :
    (run_newsapp envCleanFail).cleanText = envCleanFail.fetch_text ∧
    (run_newsapp envCleanFail).cleanFallbackWarning = true ∧
    (run_newsapp envCleanFail).summaryInput = envCleanFail.fetch_text ∧
    (run_newsapp envCleanFail).vocabInput = envCleanFail.fetch_text ∧
    Event.llmCall .summarize 0 ∈ (run_newsapp envCleanFail).events ∧
    Event.llmCall .vocab 0 ∈ (run_newsapp envCleanFail).events :=
  clean_fallback_uses_raw_text envCleanFail (by decide)

lemma run_newsapp_shape (env : NewsappEnv) :
    (∃ evs r, run_newsapp env = stopRun evs r) ∨
    (∃ evs ct cf cw, run_newsapp env =
      finish_stages env.summary_call env.vocab_call env.vocab_parse
        evs ct cf cw) := by
  simp only [run_newsapp]
  repeat' split
  all_goals first
    | exact Or.inl ⟨_, _, rfl⟩
    | exact Or.inr ⟨_, _, _, _, rfl⟩

lemma run_newsapp2_shape (env : Newsapp2Env) :
    (∃ evs r, run_newsapp2 env = stopRun evs r) ∨
    (∃ evs ct cf cw, run_newsapp2 env =
      finish_stages env.summary_call env.vocab_call env.vocab_parse
        evs ct cf cw) := by
  simp only [run_newsapp2]
  repeat' split
  all_goals first
    | exact Or.inl ⟨_, _, rfl⟩
    | exact Or.inr ⟨_, _, _, _, rfl⟩

/-- C9: in both variants, whenever the Summarize stage fails (the code shows
its per-stage error because the retried call returned no usable text), the run
is not aborted — no stop reason is set — and the Extract-Vocabulary stage
still runs: it issues its generation call, and its prompt input is exactly the
CleanText the run displays. -/
theorem summary_failure_does_not_abort :
    (∀ env : NewsappEnv, (run_newsapp env).summaryErrorShown = true →
      (run_newsapp env).stopReason = none ∧
      (run_newsapp env).vocabInput = (run_newsapp env).cleanText ∧
      Event.llmCall .vocab 0 ∈ (run_newsapp env).events) ∧
    (∀ env : Newsapp2Env, (run_newsapp2 env).summaryErrorShown = true →
      (run_newsapp2 env).stopReason = none ∧
      (run_newsapp2 env).vocabInput = (run_newsapp2 env).cleanText ∧
      Event.llmCall .vocab 0 ∈ (run_newsapp2 env).events) := by
  constructor
  · intro env h
    rcases run_newsapp_shape env with ⟨evs, r, hr⟩ | ⟨evs, ct, cf, cw, hr⟩
    · rw [hr] at h
      simp [stopRun] at h
    · rw [hr]
      refine ⟨finish_stages_stopReason _ _ _ _ _ _ _, ?_,
        finish_stages_mem_vocab _ _ _ _ _ _ _⟩
      rw [finish_stages_vocabInput, finish_stages_cleanText]
  · intro env h
    rcases run_newsapp2_shape env with ⟨evs, r, hr⟩ | ⟨evs, ct, cf, cw, hr⟩
    · rw [hr] at h
      simp [stopRun] at h
    · rw [hr]
      refine ⟨finish_stages_stopReason _ _ _ _ _ _ _, ?_,
        finish_stages_mem_vocab _ _ _ _ _ _ _⟩
      rw [finish_stages_vocabInput, finish_stages_cleanText]

def envSummaryFail : NewsappEnv :=
  ⟨"http://example.com", "key", some rawLong, none, true,
   fun _ => .success ⟨some "cleaned text"⟩,
   fun _ => .transient,
   fun _ => .success ⟨some "vocab payload"⟩,
   fun _ => none⟩

def env2SummaryFail : Newsapp2Env :=
  ⟨"http://example.com", "key", true,
   fun _ => .success ⟨some rawLong⟩,
   fun _ => .transient,
   fun _ => .success ⟨some "vocab payload"⟩,
   fun _ => none⟩

theorem summary_failure_does_not_abort_witness :
    ((run_newsapp envSummaryFail).stopReason = none ∧
      (run_newsapp envSummaryFail).vocabInput
        = (run_newsapp envSummaryFail).cleanText ∧
      Event.llmCall .vocab 0 ∈ (run_newsapp envSummaryFail).events) ∧
    ((run_newsapp2 env2SummaryFail).stopReason = none ∧
      (run_newsapp2 env2SummaryFail).vocabInput
        = (run_newsapp2 env2SummaryFail).cleanText ∧
      Event.llmCall .vocab 0 ∈ (run_newsapp2 env2SummaryFail).events) :=
  ⟨summary_failure_does_not_abort.1 envSummaryFail (by decide),
   summary_failure_does_not_abort.2 env2SummaryFail (by decide)⟩

lemma llmEvents_all (s : Stage) (n : Nat) (p : Event → Bool)
    (hp : ∀ a, p (Event.llmCall s a) = true) :
    (llmEvents s n).all p = true := by
  rw [List.all_eq_true]
  intro e he
  unfold llmEvents at he
  obtain ⟨a, _, rfl⟩ := List.mem_map.mp he
  exact hp a

/-- C5 (amended): in both variants no generation call is ever issued before
the Gemini client has been constructed (in the trace, no `llmCall` event
precedes the `clientInit` event), and a failed client construction stops the
run with no generation call at all; in the delegated variant the client
construction is moreover the first external action of the run.  (In the
local-scrape variant the HTTP fetch and the length validation precede the
client construction: see the counterexample.) -/
theorem client_init_precedes_generation_calls :
    (∀ env : NewsappEnv,
      ((run_newsapp env).events.takeWhile (fun e => !(eIsInit e))).all
        (fun e => !(eIsLlm e)) = true ∧
      (env.client_init_ok = false →
        (run_newsapp env).events.all (fun e => !(eIsLlm e)) = true)) ∧
    (∀ env : Newsapp2Env,
      ((run_newsapp2 env).events.takeWhile (fun e => !(eIsInit e))).all
        (fun e => !(eIsLlm e)) = true ∧
      ((run_newsapp2 env).events = [] ∨
        (run_newsapp2 env).events.head? = some Event.clientInit) ∧
      (env.client_init_ok = false →
        (run_newsapp2 env).events.all (fun e => !(eIsLlm e)) = true)) := by
  constructor
  · intro env
    refine ⟨?_, ?_⟩
    · simp only [run_newsapp]
      repeat' split
      all_goals
        simp [stopRun, finish_stages_events, eIsInit, eIsLlm,
          List.takeWhile_cons]
    · intro h
      simp only [run_newsapp]
      repeat' split
      all_goals simp_all [stopRun, eIsLlm]
  · intro env
    refine ⟨?_, ?_, ?_⟩
    · simp only [run_newsapp2]
      repeat' split
      all_goals
        simp [stopRun, finish_stages_events, eIsInit, eIsLlm,
          List.takeWhile_cons]
    · simp only [run_newsapp2]
      repeat' split
      all_goals first
        | exact Or.inl rfl
        | (right; simp [stopRun, finish_stages_events])
    · intro h
      simp only [run_newsapp2]
      repeat' split
      all_goals simp_all [stopRun, eIsLlm]

def envInitFail : NewsappEnv :=
  ⟨"http://example.com", "key", some rawLong, none, false,
   fun _ => .success ⟨some "cleaned"⟩,
   fun _ => .success ⟨some "summary"⟩,
   fun _ => .success ⟨some "vocab"⟩,
   fun _ => none⟩

def env2InitFail : Newsapp2Env :=
  ⟨"http://example.com", "key", false,
   fun _ => .success ⟨some rawLong⟩,
   fun _ => .success ⟨some "summary"⟩,
   fun _ => .success ⟨some "vocab"⟩,
   fun _ => none⟩

theorem client_init_precedes_generation_calls_witness :
    (run_newsapp envInitFail).events.all (fun e => !(eIsLlm e)) = true ∧
    (run_newsapp2 env2InitFail).events.all (fun e => !(eIsLlm e)) = true :=
  ⟨(client_init_precedes_generation_calls.1 envInitFail).2 rfl,
   (client_init_precedes_generation_calls.2 env2InitFail).2.2 rfl⟩

/-- C5 (counterexample): in the local-scrape variant a run with an invalid
credential first performs the HTTP fetch and the length validation, and only
then constructs the client and detects the failure — the trace places
`httpFetch` strictly before `clientInit`, so client construction does not
precede the first pipeline stage as the claim states. -/
theorem client_init_after_fetch_counterexample :
    (run_newsapp envInitFail).events = [Event.httpFetch, Event.clientInit] ∧
    (run_newsapp envInitFail).stopReason = some .clientInitFailed ∧
    List.indexOf Event.httpFetch (run_newsapp envInitFail).events <
      List.indexOf Event.clientInit (run_newsapp envInitFail).events :=
  ⟨by decide, by decide, by decide⟩

lemma run_newsapp_tooShort_events (env : NewsappEnv)
    (h : (run_newsapp env).stopReason = some .tooShort) :
    (run_newsapp env).events = [Event.httpFetch] := by
  revert h
  simp only [run_newsapp]
  repeat' split
  all_goals intro h
  all_goals simp_all [stopRun, finish_stages_stopReason]

lemma run_newsapp2_tooShort_events (env : Newsapp2Env)
    (h : (run_newsapp2 env).stopReason = some .tooShort) :
    (run_newsapp2 env).events =
      [Event.clientInit] ++ llmEvents .fetchExtract
        (extract_article_content env.extract_call).attempts := by
  revert h
  simp only [run_newsapp2]
  repeat' split
  all_goals intro h
  all_goals simp_all [stopRun, finish_stages_stopReason]

/-- C6 (amended): a run that aborts at the length validation (fetched text
shorter than 50 characters) issues no Clean, Summarize or Extract-Vocabulary
generation call; in the local-scrape variant no generation call at all has
occurred by then, while in the delegated variant the single fetch-extraction
generation call — which produced the short text — has already been issued. -/
theorem short_text_aborts_before_stage_calls :
    (∀ env : NewsappEnv, (run_newsapp env).stopReason = some .tooShort →
      (run_newsapp env).events.all (fun e => !(eIsLlm e)) = true) ∧
    (∀ env : Newsapp2Env, (run_newsapp2 env).stopReason = some .tooShort →
      (run_newsapp2 env).events.all (fun e => !(eIsStage .clean e)
        && !(eIsStage .summarize e) && !(eIsStage .vocab e)) = true) := by
  constructor
  · intro env h
    rw [run_newsapp_tooShort_events env h]
    rfl
  · intro env h
    rw [run_newsapp2_tooShort_events env h, List.all_append,
      llmEvents_all _ _ _ (fun a => rfl)]
    rfl

def envShortFetch : NewsappEnv :=
  ⟨"http://example.com", "key", some "abc", none, true,
   fun _ => .success ⟨some "cleaned"⟩,
   fun _ => .success ⟨some "summary"⟩,
   fun _ => .success ⟨some "vocab"⟩,
   fun _ => none⟩

def env2ShortText : Newsapp2Env :=
  ⟨"http://example.com", "key", true,
   fun _ => .success ⟨some "too short"⟩,
   fun _ => .success ⟨some "summary"⟩,
   fun _ => .success ⟨some "vocab"⟩,
   fun _ => none⟩

theorem short_text_aborts_before_stage_calls_witness :
    (run_newsapp envShortFetch).events.all (fun e => !(eIsLlm e)) = true ∧
    (run_newsapp2 env2ShortText).events.all (fun e => !(eIsStage .clean e)
      && !(eIsStage .summarize e) && !(eIsStage .vocab e)) = true :=
  ⟨short_text_aborts_before_stage_calls.1 envShortFetch (by decide),
   short_text_aborts_before_stage_calls.2 env2ShortText (by decide)⟩

/-- C6 (counterexample): in the delegated variant a generation call is issued
in a run whose fetched text is below the 50-character threshold — the
fetch-extraction call itself is a Generation Client call and it has already
happened when the run aborts at the Validate stage, so "no Generation Client
call is issued in that run" fails. -/
theorem delegated_fetch_is_generation_call_counterexample :
    (run_newsapp2 env2ShortText).stopReason = some .tooShort ∧
    Event.llmCall .fetchExtract 0 ∈ (run_newsapp2 env2ShortText).events ∧
    (run_newsapp2 env2ShortText).events.any eIsLlm = true :=
  ⟨by decide, by decide, by decide⟩
